import Mathlib

/-
Verification of the oblivion-helper supervisor against its natural-language
specification.

The repository contains several variants of the helper:
  * `cmd/main.go`        — gRPC server, called V1 below;
  * `unnamed/part_002`   — gRPC server with logger and richer errors, V2;
  * `unnamed/part_003`   — file-polled manager with graceful stop, V3;
  * `cmd/oblivion-helper.go` (first file) — file-polled manager whose
    command-file watcher and command dispatch are modelled below.

The shallow embedding turns each operation into a pure function from the
supervisor state and the outcomes of its OS interactions (config load,
spawn, kill, wait, stat) to the state after the call, the list of status
strings handed to `broadcastStatus`, and the error returned.  A nil
`*exec.Cmd` handle is `none`; a live handle is `some id`.
-/

namespace OblivionHelper

/-- gRPC status codes attached to errors by the two gRPC server variants. -/
inductive Code where
  | alreadyExists
  | failedPrecondition
  | notFound
  | invalidArgument
  | internal
  | aborted
deriving DecidableEq

/-- Supervisor state shared by both gRPC variants: the `running` flag and
the `sbProcess` handle (`none` models a nil `*exec.Cmd`). -/
structure ServerState where
  running : Bool
  sbProcess : Option Nat
deriving DecidableEq

/-- Result of one supervisor operation: the state after the call, the status
strings handed to `broadcastStatus` in order, whether control reached the
`exec.Cmd.Start` spawn call, and the gRPC error returned (`none` means
success). -/
structure OpOut where
  state : ServerState
  events : List String
  spawned : Bool
  err : Option Code
deriving DecidableEq

/-- `Start` of `cmd/main.go` (lines 76-110, the RPC guard plus
`startSingBox`): `loadOk` is the outcome of `loadConfig`, `h` the handle
`exec.Command` builds, `spawnOk` the outcome of `sbProcess.Start()`.  The
handle field is assigned before the spawn is attempted, so a failed spawn
leaves a non-nil handle behind with `running` still false. -/
def startV1 (s : ServerState) (loadOk : Bool) (h : Nat) (spawnOk : Bool) : OpOut :=
  if s.running then ⟨s, [], false, some Code.alreadyExists⟩
  else if !loadOk then ⟨s, [], false, some Code.failedPrecondition⟩
  else if spawnOk then ⟨⟨true, some h⟩, ["started"], true, none⟩
  else ⟨{ s with sbProcess := some h }, [], true, some Code.internal⟩

/-- `stopSingBox` of `cmd/main.go` (lines 142-152): dereferences the handle
and kills it.  `none` models the nil-pointer dereference that
`s.sbProcess.Process.Kill()` would hit on a nil handle.  `killOk` is the
outcome of `Process.Kill()`; on a kill error the function returns before
mutating anything. -/
def stopSingBoxV1 (s : ServerState) (killOk : Bool) : Option OpOut :=
  match s.sbProcess with
  | none => none
  | some _ =>
    if killOk then some ⟨⟨false, none⟩, ["stopped"], false, none⟩
    else some ⟨s, [], false, some Code.internal⟩

/-- `Stop` RPC of `cmd/main.go` (lines 127-140): the not-running guard, then
`stopSingBox`. -/
def stopV1 (s : ServerState) (killOk : Bool) : Option OpOut :=
  if !s.running then some ⟨s, [], false, some Code.failedPrecondition⟩
  else stopSingBoxV1 s killOk

/-- `Exit` RPC of `cmd/main.go` (lines 154-170): broadcasts `exited` first,
then a best-effort stop when running whose error is only logged; the RPC
itself always succeeds. -/
def exitV1 (s : ServerState) (killOk : Bool) : Option OpOut :=
  if s.running then
    match stopSingBoxV1 s killOk with
    | none => none
    | some o => some ⟨o.state, "exited" :: o.events, false, none⟩
  else some ⟨s, ["exited"], false, none⟩

/-- `monitorProcess` of `cmd/main.go` (lines 112-125): after `Wait` returns
it acts only when the error is non-nil (`waitErr`) and the state still looks
live, and then broadcasts `stopped`. -/
def monitorV1 (s : ServerState) (waitErr : Bool) : ServerState × List String :=
  if waitErr && (s.running || s.sbProcess.isSome) then (⟨false, none⟩, ["stopped"])
  else (s, [])

/-- Outcome of `loadConfig` in the part_002 variant (lines 95-113): the
config file can be absent (`os.Stat`), unreadable (`os.ReadFile`), or
unparsable (`json.Unmarshal`). -/
inductive LoadRes where
  | ok
  | missing
  | unreadable
  | unparsable
deriving DecidableEq

/-- The gRPC code `loadConfig` of part_002 attaches to each failure. -/
def loadErrCode : LoadRes → Option Code
  | LoadRes.ok => none
  | LoadRes.missing => some Code.notFound
  | LoadRes.unreadable => some Code.internal
  | LoadRes.unparsable => some Code.invalidArgument

/-- `startSingBox` of part_002 (lines 116-154), the body of its `Start`
RPC: running guard, config load, existence checks for the binary and the
Sing-Box config, then the spawn. -/
def startV2 (s : ServerState) (load : LoadRes) (binExists cfgExists : Bool)
    (h : Nat) (spawnOk : Bool) : OpOut :=
  if s.running then ⟨s, [], false, some Code.alreadyExists⟩
  else
    match loadErrCode load with
    | some c => ⟨s, [], false, some c⟩
    | none =>
      if !binExists then ⟨s, [], false, some Code.notFound⟩
      else if !cfgExists then ⟨s, [], false, some Code.notFound⟩
      else if spawnOk then ⟨⟨true, some h⟩, ["started"], true, none⟩
      else ⟨{ s with sbProcess := some h }, [], true, some Code.internal⟩

/-- `stopSingBox` of part_002 (lines 174-193), the body of its `Stop` RPC;
unlike V1 it carries the not-running guard itself.  `none` again models the
nil-handle dereference. -/
def stopSingBoxV2 (s : ServerState) (killOk : Bool) : Option OpOut :=
  if !s.running then some ⟨s, [], false, some Code.failedPrecondition⟩
  else
    match s.sbProcess with
    | none => none
    | some _ =>
      if killOk then some ⟨⟨false, none⟩, ["stopped"], false, none⟩
      else some ⟨s, [], false, some Code.internal⟩

/-- `Exit` RPC of part_002 (lines 214-231): best-effort stop when running
(errors only logged), no broadcast of its own, always succeeds. -/
def exitV2 (s : ServerState) (killOk : Bool) : Option OpOut :=
  if s.running then
    match stopSingBoxV2 s killOk with
    | none => none
    | some o => some ⟨o.state, o.events, false, none⟩
  else some ⟨s, [], false, none⟩

/-- `monitorProcess` of part_002 (lines 157-171): the same non-nil-error
guard as V1, but it broadcasts `terminated`. -/
def monitorV2 (s : ServerState) (waitErr : Bool) : ServerState × List String :=
  if waitErr && (s.running || s.sbProcess.isSome) then (⟨false, none⟩, ["terminated"])
  else (s, [])

/-- What the client-disconnect branch of `StreamStatus` returns. -/
inductive StreamRet where
  | ctxErr
  | abortedErr
deriving DecidableEq

/-- The client-disconnect branch of `StreamStatus` in part_002 (lines
238-247): when `running` it calls `stopSingBox`; a stop error is returned as
an Aborted error, otherwise the context's error is returned. -/
def streamDisconnectV2 (s : ServerState) (killOk : Bool) :
    Option (ServerState × List String × StreamRet) :=
  if s.running then
    match stopSingBoxV2 s killOk with
    | none => none
    | some o =>
      match o.err with
      | some _ => some (o.state, o.events, StreamRet.abortedErr)
      | none => some (o.state, o.events, StreamRet.ctxErr)
  else some (s, [], StreamRet.ctxErr)

/-- Status strings an operation broadcasts; an operation that would panic on
a nil handle broadcasts nothing. -/
def eventsOfOpt : Option OpOut → List String
  | none => []
  | some o => o.events

/-- Status strings the stream-disconnect branch broadcasts. -/
def eventsOfStream : Option (ServerState × List String × StreamRet) → List String
  | none => []
  | some out => out.2.1

/-- The closed status set exactly as the specification words it. -/
def specStatusSet : List String :=
  ["starting", "started", "stopping", "stopped", "terminated", "download-failed"]

/-- The status set the code actually needs: `Exit` in `cmd/main.go` also
broadcasts `exited`. -/
def statusSetFull : List String := specStatusSet ++ ["exited"]

/-- The send filter both `StreamStatus` variants run per subscription
(`cmd/main.go` lines 183-197, part_002 lines 235-266): a status equal to the
subscriber's `lastStatus` is skipped, any other is sent and remembered; the
Go zero value of `lastStatus` is the empty string. -/
def sendLoop (last : String) : List String → List String
  | [] => []
  | s :: rest => if s = last then sendLoop last rest else s :: sendLoop s rest

/-- Operating system, as `runtime.GOOS` distinguishes it in the stop paths. -/
inductive OSKind where
  | windows
  | darwin
  | linux
deriving DecidableEq

/-- One interaction of a stop path with the OS process. -/
inductive StopAct where
  | signalTerm
  | waitGrace (seconds : Nat)
  | kill
deriving DecidableEq

/-- Behaviour of the OS and the managed process during one stop attempt:
whether the SIGTERM delivery succeeds, whether the process exits within the
grace window, whether its `Wait` result is an error when it does, and
whether `Kill` succeeds. -/
structure StopEnv where
  signalOk : Bool
  exitsInGrace : Bool
  waitErr : Bool
  killOk : Bool
deriving DecidableEq

/-- Result of a stop attempt: the handle left behind, the OS interactions in
order, and whether the function returned an error. -/
structure StopOut where
  proc : Option Nat
  acts : List StopAct
  errored : Bool
deriving DecidableEq

/-- The grace timeout of part_003's stop path, `5 * time.Second`. -/
def graceTimeoutSeconds : Nat := 5

/-- `stopSingBox` of part_003 (lines 119-154): a nil handle only logs; on
Windows an immediate `Kill`; on every other target a SIGTERM, a wait of up
to 5 seconds, and a `Kill` only on timeout.  The handle is cleared exactly
when no error is returned. -/
def stopSingBoxV3 (os : OSKind) (proc : Option Nat) (env : StopEnv) : StopOut :=
  match proc with
  | none => ⟨none, [], false⟩
  | some p =>
    if os = OSKind.windows then
      if env.killOk then ⟨none, [StopAct.kill], false⟩
      else ⟨some p, [StopAct.kill], true⟩
    else
      if !env.signalOk then ⟨some p, [StopAct.signalTerm], true⟩
      else if !env.exitsInGrace then
        if env.killOk then
          ⟨none, [StopAct.signalTerm, StopAct.waitGrace graceTimeoutSeconds, StopAct.kill], false⟩
        else
          ⟨some p, [StopAct.signalTerm, StopAct.waitGrace graceTimeoutSeconds, StopAct.kill], true⟩
      else
        if env.waitErr then ⟨some p, [StopAct.signalTerm, StopAct.waitGrace graceTimeoutSeconds], true⟩
        else ⟨none, [StopAct.signalTerm, StopAct.waitGrace graceTimeoutSeconds], false⟩

/-- The OS interactions of `stopSingBox` in `cmd/main.go` (lines 142-152):
one unconditional, immediate `Kill`, with no platform distinction — the
`_os` argument is unused exactly because the code never consults
`runtime.GOOS`.  `none` models the nil-handle dereference. -/
def stopSingBoxV1Trace (_os : OSKind) (proc : Option Nat) (killOk : Bool) : Option StopOut :=
  match proc with
  | none => none
  | some p =>
    if killOk then some ⟨none, [StopAct.kill], false⟩
    else some ⟨some p, [StopAct.kill], true⟩

/-- Stop-path interactions of an attempt, empty when the call would panic. -/
def actsOfOpt : Option StopOut → List StopAct
  | none => []
  | some o => o.acts

/-- `strings.TrimSpace`: drop leading and trailing whitespace. -/
def goTrimSpace (s : String) : String :=
  String.mk (((s.data.dropWhile Char.isWhitespace).reverse.dropWhile Char.isWhitespace).reverse)

/-- `strings.ToLower`: lowercase every character. -/
def goToLower (s : String) : String :=
  String.mk (s.data.map Char.toLower)

/-- What opening and scanning the command file can yield. -/
inductive FileRead where
  | missing
  | openFail
  | content (lines : List String)
deriving DecidableEq

/-- `readCommandFromFile` (`cmd/oblivion-helper.go` lines 226-241): a
missing file yields the empty command with no error, an open failure is an
error, otherwise the first line is trimmed and then lowercased (an empty
file yields the empty command). -/
def readCommandFromFile : FileRead → Except Unit String
  | FileRead.missing => Except.ok ""
  | FileRead.openFail => Except.error ()
  | FileRead.content [] => Except.ok ""
  | FileRead.content (l :: _) => Except.ok (goToLower (goTrimSpace l))

/-- One poll of the command file: the `os.Stat` result (`none` covers both a
stat error and a missing file, `some t` is the modification time) together
with the file content seen by the read. -/
structure PollObs where
  stat : Option Nat
  file : FileRead
deriving DecidableEq

/-- One tick of `watchCommandFile` (`cmd/oblivion-helper.go` lines 209-223):
a command is emitted, and `lastModTime` advanced, only when the modification
time is strictly later than `lastModTime` and a non-empty command is read
without error. -/
def watchStep (lastModTime : Nat) (o : PollObs) : Option String × Nat :=
  match o.stat with
  | none => (none, lastModTime)
  | some mt =>
    if lastModTime < mt then
      match readCommandFromFile o.file with
      | Except.ok cmd => if cmd = "" then (none, lastModTime) else (some cmd, mt)
      | Except.error _ => (none, lastModTime)
    else (none, lastModTime)

/-- Where `processCommand` (`cmd/oblivion-helper.go` lines 190-202)
dispatches a command token. -/
inductive CmdDispatch where
  | doStart
  | doStop
  | doExit
  | ignoredUnknown (c : String)
deriving DecidableEq

/-- `processCommand`: the `switch` over the command token; anything outside
the closed command set falls to the logged-and-ignored default branch. -/
def processCommand (c : String) : CmdDispatch :=
  if c = "start" then CmdDispatch.doStart
  else if c = "stop" then CmdDispatch.doStop
  else if c = "exit" then CmdDispatch.doExit
  else CmdDispatch.ignoredUnknown c

/-- Only the `exit` dispatch ends the command loop (`handleExit` calls
`os.Exit`); every other dispatch returns control to the loop. -/
def dispatchEndsLoop : CmdDispatch → Bool
  | CmdDispatch.doExit => true
  | _ => false

/-- State after an operation that may panic on a nil handle: a panicking
call leaves the state it found (the process crashes without mutating it). -/
def stateOfOpt (dflt : ServerState) : Option OpOut → ServerState
  | none => dflt
  | some o => o.state

/-- States of the `cmd/main.go` server reachable from the freshly
constructed server (`NewServer` leaves `running` false and the handle nil)
by any sequence of RPCs and monitor wake-ups with arbitrary environment
outcomes. -/
inductive ReachV1 : ServerState → Prop where
  | init : ReachV1 ⟨false, none⟩
  | start (s : ServerState) (loadOk : Bool) (h : Nat) (spawnOk : Bool) :
      ReachV1 s → ReachV1 (startV1 s loadOk h spawnOk).state
  | stop (s : ServerState) (killOk : Bool) :
      ReachV1 s → ReachV1 (stateOfOpt s (stopV1 s killOk))
  | monitor (s : ServerState) (waitErr : Bool) :
      ReachV1 s → ReachV1 (monitorV1 s waitErr).1
  | exitStep (s : ServerState) (killOk : Bool) :
      ReachV1 s → ReachV1 (stateOfOpt s (exitV1 s killOk))

/-! Helper lemmas: each operation only ever broadcasts statuses from the
extended closed set. -/

theorem startV1_events_sub (s : ServerState) (lo : Bool) (hn : Nat) (so : Bool) :
    (startV1 s lo hn so).events ⊆ statusSetFull := by
  rcases s with ⟨r, p⟩
  cases r <;> cases lo <;> cases so <;>
    simp [startV1, statusSetFull, specStatusSet]

theorem stopV1_events_sub (s : ServerState) (k : Bool) :
    eventsOfOpt (stopV1 s k) ⊆ statusSetFull := by
  rcases s with ⟨r, p⟩
  cases r <;> cases p <;> cases k <;>
    simp [stopV1, stopSingBoxV1, eventsOfOpt, statusSetFull, specStatusSet]

theorem exitV1_events_sub (s : ServerState) (k : Bool) :
    eventsOfOpt (exitV1 s k) ⊆ statusSetFull := by
  rcases s with ⟨r, p⟩
  cases r <;> cases p <;> cases k <;>
    simp [exitV1, stopSingBoxV1, eventsOfOpt, statusSetFull, specStatusSet]

theorem monitorV1_events_sub (s : ServerState) (we : Bool) :
    (monitorV1 s we).2 ⊆ statusSetFull := by
  rcases s with ⟨r, p⟩
  cases r <;> cases p <;> cases we <;>
    simp [monitorV1, statusSetFull, specStatusSet]

theorem startV2_events_sub (s : ServerState) (load : LoadRes) (be ce : Bool)
    (hn : Nat) (so : Bool) :
    (startV2 s load be ce hn so).events ⊆ statusSetFull := by
  rcases s with ⟨r, p⟩
  cases r <;> cases load <;> cases be <;> cases ce <;> cases so <;>
    simp [startV2, loadErrCode, statusSetFull, specStatusSet]

theorem stopSingBoxV2_events_sub (s : ServerState) (k : Bool) :
    eventsOfOpt (stopSingBoxV2 s k) ⊆ statusSetFull := by
  rcases s with ⟨r, p⟩
  cases r <;> cases p <;> cases k <;>
    simp [stopSingBoxV2, eventsOfOpt, statusSetFull, specStatusSet]

theorem exitV2_events_sub (s : ServerState) (k : Bool) :
    eventsOfOpt (exitV2 s k) ⊆ statusSetFull := by
  rcases s with ⟨r, p⟩
  cases r <;> cases p <;> cases k <;>
    simp [exitV2, stopSingBoxV2, eventsOfOpt, statusSetFull, specStatusSet]

theorem monitorV2_events_sub (s : ServerState) (we : Bool) :
    (monitorV2 s we).2 ⊆ statusSetFull := by
  rcases s with ⟨r, p⟩
  cases r <;> cases p <;> cases we <;>
    simp [monitorV2, statusSetFull, specStatusSet]

theorem streamV2_events_sub (s : ServerState) (k : Bool) :
    eventsOfStream (streamDisconnectV2 s k) ⊆ statusSetFull := by
  rcases s with ⟨r, p⟩
  cases r <;> cases p <;> cases k <;>
    simp [streamDisconnectV2, stopSingBoxV2, eventsOfStream, statusSetFull, specStatusSet]

/-- C2 counterexample: `Exit` in `cmd/main.go` broadcasts `exited`, a status
outside the closed set the claim names. -/
theorem status_set_counterexample :
    eventsOfOpt (exitV1 ⟨false, none⟩ true) = ["exited"] ∧
    "exited" ∉ specStatusSet := by
  exact ⟨rfl, by decide⟩

/-- C2 (amended): every status string either gRPC variant ever hands to
`broadcastStatus` — from Start, Stop, Exit, the background monitor, or the
stream-disconnect stop, in every state — lies in the spec's closed set
extended with `exited` (which `Exit` of `cmd/main.go` broadcasts). -/
theorem status_closed_set (s : ServerState)
    (loadOk killOk spawnOk waitErr binExists cfgExists : Bool)
    (hn : Nat) (load : LoadRes) :
    (startV1 s loadOk hn spawnOk).events ⊆ statusSetFull ∧
    eventsOfOpt (stopV1 s killOk) ⊆ statusSetFull ∧
    eventsOfOpt (exitV1 s killOk) ⊆ statusSetFull ∧
    (monitorV1 s waitErr).2 ⊆ statusSetFull ∧
    (startV2 s load binExists cfgExists hn spawnOk).events ⊆ statusSetFull ∧
    eventsOfOpt (stopSingBoxV2 s killOk) ⊆ statusSetFull ∧
    eventsOfOpt (exitV2 s killOk) ⊆ statusSetFull ∧
    (monitorV2 s waitErr).2 ⊆ statusSetFull ∧
    eventsOfStream (streamDisconnectV2 s killOk) ⊆ statusSetFull :=
  ⟨startV1_events_sub s loadOk hn spawnOk, stopV1_events_sub s killOk,
   exitV1_events_sub s killOk, monitorV1_events_sub s waitErr,
   startV2_events_sub s load binExists cfgExists hn spawnOk,
   stopSingBoxV2_events_sub s killOk, exitV2_events_sub s killOk,
   monitorV2_events_sub s waitErr, streamV2_events_sub s killOk⟩

/-- C3: a Start whose configuration resolution fails (file missing,
unreadable, or unparsable) returns the config-error of its variant, spawns
no process, publishes no status, and leaves the running flag and the handle
unchanged — in both gRPC variants. -/
theorem start_config_failure (s : ServerState) (hn : Nat) (spawnOk : Bool)
    (hrun : s.running = false) :
    startV1 s false hn spawnOk = ⟨s, [], false, some Code.failedPrecondition⟩ ∧
    (∀ load : LoadRes, load ≠ LoadRes.ok → ∀ binExists cfgExists : Bool,
      startV2 s load binExists cfgExists hn spawnOk = ⟨s, [], false, loadErrCode load⟩ ∧
      loadErrCode load ∈ [some Code.notFound, some Code.internal, some Code.invalidArgument]) := by
  constructor
  · simp [startV1, hrun]
  · intro load hload binExists cfgExists
    cases load with
    | ok => exact absurd rfl hload
    | missing => simp [startV2, loadErrCode, hrun]
    | unreadable => simp [startV2, loadErrCode, hrun]
    | unparsable => simp [startV2, loadErrCode, hrun]

/-- C3 witness: concrete missing-config Start attempts in both variants. -/
theorem start_config_failure_witness :
    startV1 ⟨false, none⟩ false 4 true = ⟨⟨false, none⟩, [], false, some Code.failedPrecondition⟩ ∧
    startV2 ⟨false, none⟩ LoadRes.missing true true 4 true =
      ⟨⟨false, none⟩, [], false, loadErrCode LoadRes.missing⟩ ∧
    loadErrCode LoadRes.missing ∈
      [some Code.notFound, some Code.internal, some Code.invalidArgument] :=
  ⟨(start_config_failure ⟨false, none⟩ 4 true rfl).1,
   (start_config_failure ⟨false, none⟩ 4 true rfl).2 LoadRes.missing (by decide) true true⟩

/-- C5: a Start call on a running supervisor fails with the AlreadyExists
error, spawns nothing, publishes nothing, and leaves the state — running
flag and live handle — untouched, in both gRPC variants. -/
theorem start_already_running (s : ServerState) (loadOk : Bool) (hn : Nat)
    (spawnOk : Bool) (load : LoadRes) (binExists cfgExists : Bool)
    (hrun : s.running = true) :
    startV1 s loadOk hn spawnOk = ⟨s, [], false, some Code.alreadyExists⟩ ∧
    startV2 s load binExists cfgExists hn spawnOk = ⟨s, [], false, some Code.alreadyExists⟩ := by
  constructor <;> simp [startV1, startV2, hrun]

/-- C5 witness: a Start on a concrete running state. -/
theorem start_already_running_witness :
    startV1 ⟨true, some 2⟩ true 7 true = ⟨⟨true, some 2⟩, [], false, some Code.alreadyExists⟩ ∧
    startV2 ⟨true, some 2⟩ LoadRes.ok true true 7 true =
      ⟨⟨true, some 2⟩, [], false, some Code.alreadyExists⟩ :=
  start_already_running ⟨true, some 2⟩ true 7 true LoadRes.ok true true rfl

/-- C6: a Stop call on a non-running supervisor fails with the
FailedPrecondition error, publishes nothing, and leaves the state — running
flag and handle — unchanged, in both gRPC variants. -/
theorem stop_not_running (s : ServerState) (killOk : Bool)
    (hrun : s.running = false) :
    stopV1 s killOk = some ⟨s, [], false, some Code.failedPrecondition⟩ ∧
    stopSingBoxV2 s killOk = some ⟨s, [], false, some Code.failedPrecondition⟩ := by
  constructor <;> simp [stopV1, stopSingBoxV2, hrun]

/-- C6 witness: a Stop on the concrete freshly started (stopped) state. -/
theorem stop_not_running_witness :
    stopV1 ⟨false, none⟩ true = some ⟨⟨false, none⟩, [], false, some Code.failedPrecondition⟩ ∧
    stopSingBoxV2 ⟨false, none⟩ true =
      some ⟨⟨false, none⟩, [], false, some Code.failedPrecondition⟩ :=
  stop_not_running ⟨false, none⟩ true rfl

/-- C1 counterexample: the managed process exits on its own with a nil
`Wait` error (exit code 0) while the state is Running — the monitor of
part_002 changes nothing: `running` stays true, the handle stays set, and no
`terminated` event is published. -/
theorem monitor_clean_exit_counterexample :
    monitorV2 ⟨true, some 1⟩ false = (⟨true, some 1⟩, []) ∧
    (monitorV2 ⟨true, some 1⟩ false).1.running = true ∧
    "terminated" ∉ (monitorV2 ⟨true, some 1⟩ false).2 := by
  refine ⟨rfl, rfl, ?_⟩
  decide

/-- C1 (amended): when the managed process exits unsolicited while Running
and the exit is abnormal (`Wait` returns a non-nil error), the background
monitor moves the state to terminated — running becomes false, the handle is
cleared — and publishes exactly one status event: `terminated` in the
part_002 variant and `stopped` in the `cmd/main.go` variant; a clean
unsolicited exit (nil `Wait` error) changes nothing and publishes nothing. -/
theorem monitor_unsolicited_exit (s : ServerState) (hrun : s.running = true) :
    monitorV2 s true = (⟨false, none⟩, ["terminated"]) ∧
    monitorV1 s true = (⟨false, none⟩, ["stopped"]) ∧
    monitorV2 s false = (s, []) ∧
    monitorV1 s false = (s, []) := by
  refine ⟨?_, ?_, ?_, ?_⟩ <;> simp [monitorV1, monitorV2, hrun]

/-- C1 witness: the monitor fired on a concrete running state. -/
theorem monitor_unsolicited_exit_witness :
    monitorV2 ⟨true, some 2⟩ true = (⟨false, none⟩, ["terminated"]) ∧
    monitorV1 ⟨true, some 2⟩ true = (⟨false, none⟩, ["stopped"]) ∧
    monitorV2 ⟨true, some 2⟩ false = (⟨true, some 2⟩, []) ∧
    monitorV1 ⟨true, some 2⟩ false = (⟨true, some 2⟩, []) :=
  monitor_unsolicited_exit ⟨true, some 2⟩ rfl

/-- C4 counterexample: on Linux — a POSIX target — the stop path of
`cmd/main.go` issues one immediate Kill: it sends no termination signal and
performs no grace wait. -/
theorem stop_gracefulness_counterexample :
    stopSingBoxV1Trace OSKind.linux (some 1) true = some ⟨none, [StopAct.kill], false⟩ ∧
    StopAct.signalTerm ∉ [StopAct.kill] ∧
    StopAct.waitGrace graceTimeoutSeconds ∉ [StopAct.kill] := by
  decide

/-- C4 (amended): the signal-then-grace-then-kill stop path belongs to the
file-polled variant (part_003): on non-Windows targets it sends SIGTERM,
waits up to the 5-second grace timeout, and force-kills on timeout, so a
Stop on a process that ignores the signal still completes with the handle
cleared and no error; on Windows its force-kill is immediate; the gRPC
variant (`cmd/main.go`) instead force-kills immediately on every target. -/
theorem stop_graceful_v3 (os : OSKind) (p : Nat) (env : StopEnv)
    (hos : os ≠ OSKind.windows) (hsig : env.signalOk = true)
    (hignore : env.exitsInGrace = false) (hkill : env.killOk = true) :
    stopSingBoxV3 os (some p) env =
      ⟨none, [StopAct.signalTerm, StopAct.waitGrace graceTimeoutSeconds, StopAct.kill], false⟩ ∧
    (∀ env2 : StopEnv, ∀ q : Nat,
      (stopSingBoxV3 OSKind.windows (some q) env2).acts = [StopAct.kill]) ∧
    (∀ os2 : OSKind, ∀ q : Nat, ∀ k : Bool,
      actsOfOpt (stopSingBoxV1Trace os2 (some q) k) = [StopAct.kill]) := by
  refine ⟨?_, ?_, ?_⟩
  · simp [stopSingBoxV3, hos, hsig, hignore, hkill]
  · intro env2 q
    rcases env2 with ⟨sg, eg, we, ko⟩
    cases ko <;> simp [stopSingBoxV3]
  · intro os2 q k
    cases k <;> simp [stopSingBoxV1Trace, actsOfOpt]

/-- C4 witness: a concrete signal-ignoring process on Linux. -/
theorem stop_graceful_v3_witness :
    stopSingBoxV3 OSKind.linux (some 1) ⟨true, false, false, true⟩ =
      ⟨none, [StopAct.signalTerm, StopAct.waitGrace graceTimeoutSeconds, StopAct.kill], false⟩ ∧
    (∀ env2 : StopEnv, ∀ q : Nat,
      (stopSingBoxV3 OSKind.windows (some q) env2).acts = [StopAct.kill]) ∧
    (∀ os2 : OSKind, ∀ q : Nat, ∀ k : Bool,
      actsOfOpt (stopSingBoxV1Trace os2 (some q) k) = [StopAct.kill]) :=
  stop_graceful_v3 OSKind.linux 1 ⟨true, false, false, true⟩ (by decide) rfl rfl rfl

/-- Helper for C7: the sent sequence always forms a chain of inequalities
starting below the subscriber's remembered value. -/
theorem sendLoop_chain (l : List String) :
    ∀ last : String, List.Chain (fun a b => a ≠ b) last (sendLoop last l) := by
  induction l with
  | nil => intro last; exact List.Chain.nil
  | cons s rest ih =>
    intro last
    by_cases h : s = last
    · simpa [sendLoop, h] using ih last
    · simpa [sendLoop, h] using List.Chain.cons (Ne.symm h) (ih s)

/-- C7: for every sequence of status values a subscription receives from the
status channel, the sequence of statuses actually sent to that subscriber
contains no two consecutive equal strings; the subscriber starts from the Go
zero value of `lastStatus`, the empty string. -/
theorem stream_no_consecutive_duplicates (l : List String) :
    List.Chain' (fun a b => a ≠ b) (sendLoop "" l) := by
  have h := sendLoop_chain l ""
  cases hl : sendLoop "" l with
  | nil => simp
  | cons a t =>
    rw [hl] at h
    cases h with
    | cons hab ht => exact ht

/-- C8: the file-polled command source accepts a command only when the
command file's modification time is strictly later than the last accepted
one (which then advances); the accepted command is the first line of the
file, trimmed then lowercased, and non-empty; a token outside the closed
command set is dispatched to the logged-and-ignored branch, which does not
end the command loop. -/
theorem command_file_polling :
    (∀ last last' : Nat, ∀ o : PollObs, ∀ cmd : String,
      watchStep last o = (some cmd, last') →
      (∃ mt, o.stat = some mt ∧ last < mt ∧ last' = mt) ∧
      (∃ l ls, o.file = FileRead.content (l :: ls) ∧ cmd = goToLower (goTrimSpace l)) ∧
      cmd ≠ "") ∧
    (∀ last mt : Nat, ∀ o : PollObs, o.stat = some mt → ¬ last < mt →
      watchStep last o = (none, last)) ∧
    (∀ c : String, c ∉ (["start", "stop", "exit"] : List String) →
      processCommand c = CmdDispatch.ignoredUnknown c ∧
      dispatchEndsLoop (processCommand c) = false) := by
  refine ⟨?_, ?_, ?_⟩
  · intro last last' o cmd h
    rcases o with ⟨stat, file⟩
    cases stat with
    | none => simp [watchStep] at h
    | some mt =>
      by_cases hlt : last < mt
      · cases file with
        | missing => simp [watchStep, hlt, readCommandFromFile] at h
        | openFail => simp [watchStep, hlt, readCommandFromFile] at h
        | content lines =>
          cases lines with
          | nil => simp [watchStep, hlt, readCommandFromFile] at h
          | cons l ls =>
            by_cases hempty : goToLower (goTrimSpace l) = ""
            · simp [watchStep, hlt, readCommandFromFile, hempty] at h
            · simp only [watchStep, hlt, readCommandFromFile, hempty,
                if_true, if_false] at h
              injection h with h1 h2
              refine ⟨⟨mt, rfl, hlt, h2.symm⟩,
                ⟨l, ls, rfl, (Option.some.inj h1).symm⟩, ?_⟩
              rw [← Option.some.inj h1]
              exact hempty
      · simp [watchStep, hlt] at h
  · intro last mt o hstat hlt
    rcases o with ⟨stat, file⟩
    simp only [] at hstat
    subst hstat
    simp [watchStep, hlt]
  · intro c hc
    simp only [List.mem_cons, List.mem_singleton, List.not_mem_nil] at hc
    push_neg at hc
    obtain ⟨h1, h2, h3⟩ := hc
    simp [processCommand, dispatchEndsLoop, h1, h2, h3]

/-- C8 witness: a stale modification time is rejected and an unknown token
is ignored without ending the loop. -/
theorem command_file_polling_witness :
    watchStep 9 ⟨some 4, FileRead.content ["start"]⟩ = (none, 9) ∧
    processCommand "restart" = CmdDispatch.ignoredUnknown "restart" ∧
    dispatchEndsLoop (processCommand "restart") = false :=
  ⟨command_file_polling.2.1 9 4 ⟨some 4, FileRead.content ["start"]⟩ rfl (by decide),
   command_file_polling.2.2 "restart" (by decide)⟩

/-! Helper lemmas for C9: every operation of the `cmd/main.go` server
preserves the handle invariant. -/

theorem startV1_preserves_handle (s : ServerState) (lo : Bool) (hn : Nat) (so : Bool)
    (ih : s.running = true → s.sbProcess.isSome = true) :
    (startV1 s lo hn so).state.running = true →
    (startV1 s lo hn so).state.sbProcess.isSome = true := by
  rcases s with ⟨r, p⟩
  cases r <;> cases lo <;> cases so <;> simp_all [startV1]

theorem stopV1_preserves_handle (s : ServerState) (k : Bool)
    (ih : s.running = true → s.sbProcess.isSome = true) :
    (stateOfOpt s (stopV1 s k)).running = true →
    (stateOfOpt s (stopV1 s k)).sbProcess.isSome = true := by
  rcases s with ⟨r, p⟩
  cases r <;> cases p <;> cases k <;> simp_all [stopV1, stopSingBoxV1, stateOfOpt]

theorem exitV1_preserves_handle (s : ServerState) (k : Bool)
    (ih : s.running = true → s.sbProcess.isSome = true) :
    (stateOfOpt s (exitV1 s k)).running = true →
    (stateOfOpt s (exitV1 s k)).sbProcess.isSome = true := by
  rcases s with ⟨r, p⟩
  cases r <;> cases p <;> cases k <;> simp_all [exitV1, stopSingBoxV1, stateOfOpt]

theorem monitorV1_preserves_handle (s : ServerState) (we : Bool)
    (ih : s.running = true → s.sbProcess.isSome = true) :
    (monitorV1 s we).1.running = true →
    (monitorV1 s we).1.sbProcess.isSome = true := by
  rcases s with ⟨r, p⟩
  cases r <;> cases p <;> cases we <;> simp_all [monitorV1]

/-- Helper for C9: the handle invariant holds in every reachable state. -/
theorem reachV1_handle_inv :
    ∀ s : ServerState, ReachV1 s → s.running = true → s.sbProcess.isSome = true := by
  intro s hs
  induction hs with
  | init => simp
  | start s lo hn so _ ih => exact startV1_preserves_handle s lo hn so ih
  | stop s k _ ih => exact stopV1_preserves_handle s k ih
  | monitor s we _ ih => exact monitorV1_preserves_handle s we ih
  | exitStep s k _ ih => exact exitV1_preserves_handle s k ih

/-- C9: in every reachable state of the `cmd/main.go` server, running
implies a non-nil handle, so the handle dereference of the stop path cannot
hit nil under Stop's precondition; the converse fails — a failed spawn
leaves a reachable state with a non-nil handle and running false. -/
theorem running_implies_handle :
    (∀ s : ServerState, ReachV1 s → s.running = true → s.sbProcess.isSome = true) ∧
    (∀ s : ServerState, ∀ k : Bool, ReachV1 s → s.running = true →
      (stopV1 s k).isSome = true) ∧
    (∃ s : ServerState, ReachV1 s ∧ s.running = false ∧ s.sbProcess.isSome = true) := by
  refine ⟨reachV1_handle_inv, ?_, ?_⟩
  · intro s k hs hr
    have hp := reachV1_handle_inv s hs hr
    rcases s with ⟨r, p⟩
    cases p with
    | none => simp at hp
    | some n => cases k <;> simp_all [stopV1, stopSingBoxV1]
  · refine ⟨⟨false, some 1⟩, ?_, rfl, rfl⟩
    have h := ReachV1.start ⟨false, none⟩ true 1 false ReachV1.init
    simpa [startV1] using h

/-- C9 witness: a Stop on the concrete reachable running state does not hit
a nil handle. -/
theorem running_implies_handle_witness :
    (stopV1 ⟨true, some 1⟩ true).isSome = true :=
  running_implies_handle.2.1 ⟨true, some 1⟩ true
    (by simpa [startV1] using ReachV1.start ⟨false, none⟩ true 1 true ReachV1.init) rfl

/-- C10 counterexample: a client disconnect while running whose Kill fails —
the stream returns the Aborted stop-failure error, not the context's error
the claim promises. -/
theorem stream_disconnect_counterexample :
    streamDisconnectV2 ⟨true, some 1⟩ false = some (⟨true, some 1⟩, [], StreamRet.abortedErr) ∧
    StreamRet.abortedErr ≠ StreamRet.ctxErr := by
  decide

/-- C10 (amended): on a client disconnect while running, StreamStatus
invokes the stop path: when the kill succeeds the process is stopped,
`stopped` is broadcast, and the context's error is returned; when the kill
fails the state is unchanged and an Aborted stop-failure error is returned
instead of the context's error; a disconnect while not running stops
nothing, broadcasts nothing, and returns the context's error directly. -/
theorem stream_disconnect_policy (s : ServerState) :
    (∀ p : Nat, s.sbProcess = some p → s.running = true →
      streamDisconnectV2 s true = some (⟨false, none⟩, ["stopped"], StreamRet.ctxErr) ∧
      streamDisconnectV2 s false = some (s, [], StreamRet.abortedErr)) ∧
    (s.running = false →
      ∀ k : Bool, streamDisconnectV2 s k = some (s, [], StreamRet.ctxErr)) := by
  rcases s with ⟨r, p2⟩
  constructor
  · intro p hp hr
    simp only [] at hp hr
    subst hp
    subst hr
    simp [streamDisconnectV2, stopSingBoxV2]
  · intro hr k
    simp only [] at hr
    subst hr
    simp [streamDisconnectV2]

/-- C10 witness: a concrete disconnect while running with both kill
outcomes, and a disconnect on the nil-handle initial state. -/
theorem stream_disconnect_policy_witness :
    (streamDisconnectV2 ⟨true, some 3⟩ true = some (⟨false, none⟩, ["stopped"], StreamRet.ctxErr) ∧
     streamDisconnectV2 ⟨true, some 3⟩ false = some (⟨true, some 3⟩, [], StreamRet.abortedErr)) ∧
    streamDisconnectV2 ⟨false, none⟩ true = some (⟨false, none⟩, [], StreamRet.ctxErr) :=
  ⟨(stream_disconnect_policy ⟨true, some 3⟩).1 3 rfl rfl,
   (stream_disconnect_policy ⟨false, none⟩).2 rfl true⟩

end OblivionHelper
